import Mathlib

/-!
Verification of the bikeshare filtering-and-aggregation pipeline

Shallow embedding of the core of the bikeshare statistics script
(file src/bikeshare.py): the dataset loader with its derived columns,
the month/day filter stage, and the four aggregation sub-reports
(time-of-travel, station popularity, trip duration, user demographics).

A pandas DataFrame is modelled as a list of trip records together with
the list of column names present; reading a column that is absent
fails (models a pandas KeyError), and the pandas idiom
series.mode()[0] is modelled as an Option-valued mode that is none on
an empty column (models the IndexError/KeyError raised by the [0]
access on an empty mode series).
-/

set_option autoImplicit false

namespace Bikeshare

/-- Start timestamp of a trip, reduced to the fields the script ever
reads from it: calendar month (1..12), weekday (0 = Monday .. 6 =
Sunday, the Python date.weekday convention used by calendar.day_name
and strftime), and hour of day (0..23). -/
structure StartTime where
  month : Nat
  weekday : Fin 7
  hour : Nat
  deriving DecidableEq

/-- One row of a city dataset, with the values of every column the
script can touch.  Which of these columns is actually present in a
given DataFrame is tracked separately (DataFrame.cols), since the
Washington file lacks the Gender and Birth Year columns.  Missing
cells (pandas NaN) in the optional demographic columns are modelled
with Option. -/
structure Trip where
  startTime : StartTime
  startStation : String
  endStation : String
  tripDuration : Nat
  userType : String
  gender : Option String
  birthYear : Option Int
  deriving DecidableEq

/-- A pandas DataFrame: the rows plus the names of the columns that
are present. -/
structure DataFrame where
  rows : List Trip
  cols : List String
  deriving DecidableEq

/-- Python calendar.day_name: full English weekday names, Monday
first (index 0) through Sunday (index 6). -/
def day_name : List String :=
  ["Monday", "Tuesday", "Wednesday", "Thursday", "Friday", "Saturday", "Sunday"]

/-- Python timestamp.strftime with the %A directive: the full English
weekday name of the timestamp, as used at line 183 of the script to
derive the day_of_week column. -/
def strftimeA (w : Fin 7) : String := day_name.getD w.val ""

/-- Value of the derived month column of a row (line 182:
df.month = df.StartTime.dt.month). -/
def month_col (t : Trip) : Nat := t.startTime.month

/-- Value of the derived day_of_week column of a row (line 183:
strftime %A on the start timestamp). -/
def day_of_week_col (t : Trip) : String := strftimeA t.startTime.weekday

/-- Value of the derived hour column of a row (line 241:
df.hour = df.StartTime.dt.hour). -/
def hour_col (t : Trip) : Nat := t.startTime.hour

/-- Python str.title() on one character stream: a cased character that
follows a non-cased character is uppercased, a cased character that
follows a cased one is lowercased.  The Bool argument records whether
the previous character was cased. -/
def pyTitleAux : Bool → List Char → List Char
  | _, [] => []
  | prevAlpha, c :: cs =>
    let c2 := if c.isAlpha then (if prevAlpha then c.toLower else c.toUpper) else c
    c2 :: pyTitleAux c.isAlpha cs

/-- Python str.title(), as applied to the day filter value at line 198
(df.day_of_week == day.title()). -/
def pyTitle (s : String) : String := ⟨pyTitleAux false s.data⟩

/-- Python list indexing with negative-index wraparound: l[i] is
l[len l + i] when -len l <= i < 0, and out-of-range indices raise
(modelled as none). -/
def pyIndex (l : List String) (i : Int) : Option String :=
  if 0 ≤ i then l.get? i.toNat
  else if -i ≤ (l.length : Int) then l.get? ((l.length : Int) + i).toNat
  else none

/-- Line 147 of the script: calendar.day_name[int(day) - 2], the
conversion of the integer day answer (1..7) to a weekday name.  For
day = 1 the index is -1, which Python resolves to the last list entry
(Sunday). -/
def int_to_day_name (n : Nat) : Option String := pyIndex day_name ((n : Int) - 2)

/-- Number of occurrences of a value in a column, as computed by the
df[df.c == v].c.count() idiom used for every mode occurrence count. -/
def countVal {α : Type} [DecidableEq α] (l : List α) (a : α) : Nat :=
  (l.filter (fun x => x = a)).length

/-- Lexicographic order on character lists, by code point: the order
pandas uses to sort tied string mode values. -/
def charListLt : List Char → List Char → Bool
  | _, [] => false
  | [], _ :: _ => true
  | a :: as, b :: bs =>
    if a < b then true else if b < a then false else charListLt as bs

/-- Comparison of two strings by code point. -/
def strLt (a b : String) : Bool := charListLt a.data b.data

/-- Comparison of two naturals. -/
def natLt (a b : Nat) : Bool := a < b

/-- Comparison of two integers. -/
def intLt (a b : Int) : Bool := a < b

/-- One fold step of the mode computation: keep the candidate with
the larger occurrence count, breaking ties toward the smaller value
under the given order. -/
def modeStep {α : Type} [DecidableEq α] (lt : α → α → Bool) (full : List α)
    (best : Option α) (a : α) : Option α :=
  match best with
  | none => some a
  | some b =>
    if countVal full b < countVal full a then some a
    else if countVal full a = countVal full b ∧ lt a b then some a
    else some b

/-- pandas series.mode()[0]: the smallest among the most frequent
values of the column, and a failure (none) on an empty column, since
mode() of an empty series is empty and the [0] access raises. -/
def modeAux {α : Type} [DecidableEq α] (lt : α → α → Bool) (l : List α) :
    Option α :=
  l.foldl (modeStep lt l) none

/-- Reading column c of a DataFrame, where f gives the value of that
column on each row: a pandas KeyError on an absent column is modelled
as none. -/
def colVals {α : Type} (df : DataFrame) (c : String) (f : Trip → α) :
    Option (List α) :=
  if c ∈ df.cols then some (df.rows.map f) else none

/-- The pandas column assignment df[c] = ...: the column set gains c
(the cell values themselves are functions of the row, so only the
column list changes). -/
def add_col (df : DataFrame) (c : String) : DataFrame :=
  ⟨df.rows, if c ∈ df.cols then df.cols else df.cols ++ [c]⟩

/-- The months list of load_data (line 188), used to turn a month
name into its 1-based number. -/
def months : List String :=
  ["january", "february", "march", "april", "may", "june"]

/-- The month filter of load_data (line 192): keep the rows whose
derived month equals the selected month number. -/
def filter_month (mv : Nat) (rows : List Trip) : List Trip :=
  rows.filter (fun t => month_col t == mv)

/-- The day filter of load_data (line 198): keep the rows whose
derived day_of_week equals the title-cased selected day name. -/
def filter_day (d : String) (rows : List Trip) : List Trip :=
  rows.filter (fun t => day_of_week_col t == pyTitle d)

/-- months.index(month) + 1 of line 189, and none when the month
filter is "all" (no month restriction).  A month name outside the
list would raise a ValueError in Python; that case is none as well
and makes load_data fail. -/
def month_selector (month : String) : Option Nat :=
  if month = "all" then none
  else (months.findIdx? (fun x => x == month)).map (· + 1)

/-- load_data (lines 161-203): read the city file (the source rows
and its column names are the input), derive the month and day_of_week
columns, then filter by month and by day unless the respective
selection is "all". -/
def load_data (source : List Trip) (srcCols : List String) (month day : String) :
    Option DataFrame :=
  (if month = "all" then some source
   else (months.findIdx? (fun x => x == month)).map
     (fun i => filter_month (i + 1) source)).map
    (fun rows1 =>
      ⟨if day = "all" then rows1 else filter_day day rows1,
       srcCols ++ ["month", "day_of_week"]⟩)

/-- One reported most-frequent statistic: the value, its occurrence
count, and the total (non-null) count of the column in scope. -/
structure StatItem (α : Type) where
  value : α
  count : Nat
  total : Nat
  deriving DecidableEq

/-- Result of the time-of-travel sub-report: the month and day parts
are none when skipped because that axis was already filtered. -/
structure TimeStatsResult where
  popularMonth : Option (StatItem Nat)
  popularDay : Option (StatItem String)
  popularHour : StatItem Nat
  deriving DecidableEq

/-- The most-frequent statistic of one column: mode, its count, and
the column total; fails (none) on an empty column. -/
def statOf {α : Type} [DecidableEq α] (lt : α → α → Bool) (col : List α) :
    Option (StatItem α) :=
  (modeAux lt col).map (fun m => ⟨m, countVal col m, col.length⟩)

/-- time_stats (lines 205-253): most popular month (only when the
month filter is "all"), most popular day of week (only when the day
filter is "all"), and most popular start hour (always; line 241 first
assigns the derived hour column onto the DataFrame, which is the
mutated DataFrame returned alongside the result). -/
def time_stats (df : DataFrame) (month day : String) :
    Option (TimeStatsResult × DataFrame) :=
  (if month = "all"
     then (colVals df "month" month_col).bind (fun mcol =>
       (statOf natLt mcol).map some)
     else some none).bind (fun monthStat =>
  (if day = "all"
     then (colVals df "day_of_week" day_of_week_col).bind (fun dcol =>
       (statOf strLt dcol).map some)
     else some none).bind (fun dayStat =>
  (colVals (add_col df "hour") "hour" hour_col).bind (fun hcol =>
  (statOf natLt hcol).map (fun hourStat =>
    (⟨monthStat, dayStat, hourStat⟩, add_col df "hour")))))

/-- Result of the station-popularity sub-report. -/
structure StationStatsResult where
  popularStart : StatItem String
  popularEnd : StatItem String
  popularCombo : StatItem String
  deriving DecidableEq

/-- Value of the Combined Start-End column assigned at line 287: the
two station names joined with the fixed separator. -/
def combined_col (t : Trip) : String :=
  t.startStation ++ " -to- " ++ t.endStation

/-- station_stats (lines 255-301): most popular start station, end
station, and start/end combination; line 287 first assigns the
Combined Start-End column onto the DataFrame, which is the mutated
DataFrame returned alongside the result. -/
def station_stats (df : DataFrame) : Option (StationStatsResult × DataFrame) :=
  (colVals df "Start Station" Trip.startStation).bind (fun scol =>
  (statOf strLt scol).bind (fun startStat =>
  (colVals df "End Station" Trip.endStation).bind (fun ecol =>
  (statOf strLt ecol).bind (fun endStat =>
  (colVals (add_col df "Combined Start-End") "Combined Start-End" combined_col).bind
    (fun ccol =>
  (statOf strLt ccol).map (fun comboStat =>
    (⟨startStat, endStat, comboStat⟩, add_col df "Combined Start-End")))))))

/-- The %02d directive of line 317: decimal rendering padded with
leading zeros to a minimum width of two digits. -/
def pad2 (n : Nat) : String :=
  if n < 10 then "0" ++ toString n else toString n

/-- Lines 313-317: the divmod chain over the summed duration (60
sec/min, 60 min/hr, 24 hr/day, 365 day/year) and the
"%d years %02d days %02d hrs %02d min %02d sec" format string. -/
def format_duration (total : Nat) : String :=
  let m := total / 60
  let s := total % 60
  let h := m / 60
  let m2 := m % 60
  let d := h / 24
  let h2 := h % 24
  let y := d / 365
  let d2 := d % 365
  toString y ++ " years " ++ pad2 d2 ++ " days " ++ pad2 h2 ++ " hrs " ++
    pad2 m2 ++ " min " ++ pad2 s ++ " sec"

/-- The total-travel-time part of trip_duration_stats (lines
311-317): sum the Trip Duration column and render the breakdown.
(The mean-travel-time part is floating-point and outside this
embedding.) -/
def trip_duration_total (df : DataFrame) : Option String :=
  (colVals df "Trip Duration" Trip.tripDuration).map
    (fun dcol => format_duration dcol.sum)

/-- Result of the user-demographics sub-report: the gender table and
the birth-year block are none when the backing column is absent for
the loaded city.  The birth-year block is (earliest, latest,
most-frequent statistic). -/
structure UserStatsResult where
  userTypeCounts : List (String × Nat)
  genderCounts : Option (List (String × Nat))
  birthStats : Option (Int × Int × StatItem Int)
  deriving DecidableEq

/-- The df.groupby(c)[c].count() idiom of lines 349 and 362: one
(value, occurrence count) pair per distinct value of the column. -/
def groupCounts (l : List String) : List (String × Nat) :=
  l.dedup.map (fun a => (a, countVal l a))

/-- user_stats (lines 340-392): the User Type counts are computed
unconditionally (line 349 accesses the column with no presence
check), while the Gender counts and the Birth Year block are guarded
by the column-presence tests of lines 361 and 373.  min/max/mode of
the Birth Year column skip missing cells; with no non-missing cell
the int(...) conversions of lines 374-376 raise (modelled none). -/
def user_stats (df : DataFrame) : Option UserStatsResult :=
  (colVals df "User Type" Trip.userType).bind (fun ucol =>
  (if "Gender" ∈ df.cols
     then some (some (groupCounts (df.rows.filterMap Trip.gender)))
     else some none).bind (fun genderCounts =>
  (if "Birth Year" ∈ df.cols
     then
       (df.rows.filterMap Trip.birthYear).min?.bind (fun earliest =>
       (df.rows.filterMap Trip.birthYear).max?.bind (fun latest =>
       (statOf intLt (df.rows.filterMap Trip.birthYear)).map (fun birthStat =>
         some (earliest, latest, birthStat))))
     else some none).map (fun birthStats =>
  ⟨groupCounts ucol, genderCounts, birthStats⟩)))

/-- Python round() at line 71, on an exact rational: round half to
even. -/
def pyRound (q : ℚ) : ℤ :=
  if q - ⌊q⌋ < 1 / 2 then ⌊q⌋
  else if 1 / 2 < q - ⌊q⌋ then ⌊q⌋ + 1
  else if 2 ∣ ⌊q⌋ then ⌊q⌋ else ⌊q⌋ + 1

/-- The percentage of extra_stats_message (line 71):
round(stats_value * 100 / stats_superset_value), displayed only when
the superset total is nonzero. -/
def extra_stats_percent (statsValue statsSupersetValue : Nat) : Option ℤ :=
  if statsSupersetValue ≠ 0
    then some (pyRound ((statsValue : ℚ) * 100 / (statsSupersetValue : ℚ)))
    else none

/-! ### Concrete sample data for witnesses and counterexamples -/

/-- Columns shared by all three city files. -/
def commonCols : List String :=
  ["Start Time", "Start Station", "End Station", "Trip Duration", "User Type"]

/-- Column layout of the Chicago and New York files (demographics
included). -/
def fullCols : List String := commonCols ++ ["Gender", "Birth Year"]

/-- Column layout of the Washington file: no Gender, no Birth Year. -/
def washCols : List String := commonCols

/-- Column layout after load_data on a full-layout city. -/
def loadedCols : List String := fullCols ++ ["month", "day_of_week"]

/-- A sample trip: June, Monday (weekday 0), 9 am. -/
def sampleTrip : Trip :=
  { startTime := ⟨6, 0, 9⟩
    startStation := "A St"
    endStation := "B St"
    tripDuration := 300
    userType := "Subscriber"
    gender := some "Male"
    birthYear := some 1990 }

/-- A second sample trip: January, Sunday (weekday 6), 23 pm. -/
def sampleTrip2 : Trip :=
  { startTime := ⟨1, 6, 23⟩
    startStation := "C St"
    endStation := "B St"
    tripDuration := 60
    userType := "Customer"
    gender := none
    birthYear := none }

/-- A loaded two-row DataFrame with the full column layout. -/
def sampleDf : DataFrame := ⟨[sampleTrip, sampleTrip2], loadedCols⟩

/-- A loaded one-row DataFrame with the Washington column layout. -/
def washDf : DataFrame :=
  ⟨[{ sampleTrip with gender := none, birthYear := none }],
   washCols ++ ["month", "day_of_week"]⟩

/-- A DataFrame whose column set lacks User Type. -/
def noUserTypeDf : DataFrame :=
  ⟨[sampleTrip], ["Start Time", "month", "day_of_week"]⟩

/-- A loaded DataFrame with zero rows: what load_data returns when a
month/day combination matches no trip. -/
def emptyDf : DataFrame := ⟨[], loadedCols⟩

/-- A one-row DataFrame whose summed Trip Duration is 31,622,400
seconds (366 whole days). -/
def durDf : DataFrame :=
  ⟨[{ sampleTrip with tripDuration := 31622400 }], loadedCols⟩

/-- The time-of-travel result on sampleDf with no filters: every
column of sampleDf has a two-way tie, so each mode is the smaller
value. -/
def sampleTimeRes : TimeStatsResult :=
  ⟨some ⟨1, 1, 2⟩, some ⟨"Monday", 1, 2⟩, ⟨9, 1, 2⟩⟩

/-- The user-demographics result on washDf: user-type counts only. -/
def washRes : UserStatsResult := ⟨[("Subscriber", 1)], none, none⟩

/-! ### Helper lemmas -/

theorem countVal_le_length {α : Type} [DecidableEq α] (l : List α) (a : α) :
    countVal l a ≤ l.length :=
  List.length_filter_le _ l

theorem modeStep_some {α : Type} [DecidableEq α] (lt : α → α → Bool)
    (full : List α) (best : Option α) (a : α) :
    ∃ c, modeStep lt full best a = some c := by
  cases best with
  | none => exact ⟨a, rfl⟩
  | some b =>
    simp only [modeStep]
    split_ifs with h1 h2
    · exact ⟨a, rfl⟩
    · exact ⟨a, rfl⟩
    · exact ⟨b, rfl⟩

theorem foldl_modeStep_isSome {α : Type} [DecidableEq α] (lt : α → α → Bool)
    (full : List α) :
    ∀ (l : List α) (b : α), (l.foldl (modeStep lt full) (some b)).isSome := by
  intro l
  induction l with
  | nil => intro b; rfl
  | cons a l2 ih =>
    intro b
    rw [List.foldl_cons]
    obtain ⟨c, hc⟩ := modeStep_some lt full (some b) a
    rw [hc]
    exact ih c

theorem modeAux_isSome {α : Type} [DecidableEq α] (lt : α → α → Bool)
    (l : List α) (h : l ≠ []) : (modeAux lt l).isSome := by
  cases l with
  | nil => exact absurd rfl h
  | cons a l2 =>
    show ((a :: l2).foldl (modeStep lt (a :: l2)) none).isSome
    rw [List.foldl_cons]
    exact foldl_modeStep_isSome lt (a :: l2) l2 a

theorem statOf_eq_some_of_ne_nil {α : Type} [DecidableEq α] (lt : α → α → Bool)
    (col : List α) (h : col ≠ []) :
    ∃ m, statOf lt col = some ⟨m, countVal col m, col.length⟩ := by
  obtain ⟨m, hm⟩ := Option.isSome_iff_exists.mp (modeAux_isSome lt col h)
  exact ⟨m, by simp [statOf, hm]⟩

theorem statOf_count_le_total {α : Type} [DecidableEq α] {lt : α → α → Bool}
    (col : List α) (s : StatItem α) (h : statOf lt col = some s) :
    s.count ≤ s.total := by
  simp only [statOf, Option.map_eq_some'] at h
  obtain ⟨m, hm, rfl⟩ := h
  exact countVal_le_length col m

theorem colVals_eq_some {α : Type} {df : DataFrame} {c : String} {f : Trip → α}
    {l : List α} (h : colVals df c f = some l) :
    c ∈ df.cols ∧ l = df.rows.map f := by
  unfold colVals at h
  by_cases hc : c ∈ df.cols
  · rw [if_pos hc] at h
    exact ⟨hc, (Option.some.inj h).symm⟩
  · rw [if_neg hc] at h
    exact absurd h (by simp)

theorem colVals_of_mem {α : Type} {df : DataFrame} {c : String} (f : Trip → α)
    (h : c ∈ df.cols) : colVals df c f = some (df.rows.map f) := by
  simp [colVals, h]

theorem mem_add_col_self (df : DataFrame) (c : String) : c ∈ (add_col df c).cols := by
  unfold add_col
  by_cases h : c ∈ df.cols
  · simp [h]
  · simp [h]

theorem add_col_rows (df : DataFrame) (c : String) : (add_col df c).rows = df.rows := rfl

theorem colVals_add_col_self {α : Type} (df : DataFrame) (c : String) (f : Trip → α) :
    colVals (add_col df c) c f = some (df.rows.map f) := by
  have h := colVals_of_mem f (mem_add_col_self df c)
  rwa [add_col_rows] at h

theorem time_stats_inv {df : DataFrame} {month day : String} {res : TimeStatsResult}
    {df2 : DataFrame} (h : time_stats df month day = some (res, df2)) :
    df2 = add_col df "hour" ∧
    statOf natLt (df.rows.map hour_col) = some res.popularHour ∧
    (month = "all" → "month" ∈ df.cols ∧
      ∃ s, statOf natLt (df.rows.map month_col) = some s ∧
        res.popularMonth = some s) ∧
    (month ≠ "all" → res.popularMonth = none) ∧
    (day = "all" → "day_of_week" ∈ df.cols ∧
      ∃ s, statOf strLt (df.rows.map day_of_week_col) = some s ∧
        res.popularDay = some s) ∧
    (day ≠ "all" → res.popularDay = none) := by
  unfold time_stats at h
  simp only [Option.bind_eq_some] at h
  obtain ⟨monthStat, hms, h⟩ := h
  obtain ⟨dayStat, hds, h⟩ := h
  obtain ⟨hcol, hhc, h⟩ := h
  simp only [Option.map_eq_some', Prod.mk.injEq] at h
  obtain ⟨hourStat, hhs, hres, hdf2⟩ := h
  subst hres
  subst hdf2
  obtain ⟨-, hcolv⟩ := colVals_eq_some hhc
  rw [add_col_rows] at hcolv
  subst hcolv
  refine ⟨rfl, hhs, ?_, ?_, ?_, ?_⟩
  · intro hm
    rw [if_pos hm] at hms
    simp only [Option.bind_eq_some, Option.map_eq_some'] at hms
    obtain ⟨mcol, hmc, s, hs, hmsEq⟩ := hms
    obtain ⟨hmem, hval⟩ := colVals_eq_some hmc
    subst hval
    exact ⟨hmem, s, hs, hmsEq.symm⟩
  · intro hm
    rw [if_neg hm] at hms
    exact (Option.some.inj hms).symm
  · intro hd
    rw [if_pos hd] at hds
    simp only [Option.bind_eq_some, Option.map_eq_some'] at hds
    obtain ⟨dcol, hdc, s, hs, hdsEq⟩ := hds
    obtain ⟨hmem, hval⟩ := colVals_eq_some hdc
    subst hval
    exact ⟨hmem, s, hs, hdsEq.symm⟩
  · intro hd
    rw [if_neg hd] at hds
    exact (Option.some.inj hds).symm

theorem station_stats_inv {df : DataFrame} {res : StationStatsResult}
    {df2 : DataFrame} (h : station_stats df = some (res, df2)) :
    df2 = add_col df "Combined Start-End" ∧
    statOf strLt (df.rows.map Trip.startStation) = some res.popularStart ∧
    statOf strLt (df.rows.map Trip.endStation) = some res.popularEnd ∧
    statOf strLt (df.rows.map combined_col) = some res.popularCombo := by
  unfold station_stats at h
  simp only [Option.bind_eq_some] at h
  obtain ⟨scol, hsc, h⟩ := h
  obtain ⟨startStat, hss, h⟩ := h
  obtain ⟨ecol, hec, h⟩ := h
  obtain ⟨endStat, hes, h⟩ := h
  obtain ⟨ccol, hcc, h⟩ := h
  simp only [Option.map_eq_some', Prod.mk.injEq] at h
  obtain ⟨comboStat, hcs, hres, hdf2⟩ := h
  subst hres
  subst hdf2
  obtain ⟨-, hv1⟩ := colVals_eq_some hsc
  obtain ⟨-, hv2⟩ := colVals_eq_some hec
  obtain ⟨-, hv3⟩ := colVals_eq_some hcc
  rw [add_col_rows] at hv3
  subst hv1
  subst hv2
  subst hv3
  exact ⟨rfl, hss, hes, hcs⟩

theorem user_stats_inv {df : DataFrame} {res : UserStatsResult}
    (h : user_stats df = some res) :
    res.userTypeCounts = groupCounts (df.rows.map Trip.userType) ∧
    "User Type" ∈ df.cols ∧
    (res.genderCounts.isSome ↔ "Gender" ∈ df.cols) ∧
    (res.birthStats.isSome ↔ "Birth Year" ∈ df.cols) := by
  unfold user_stats at h
  simp only [Option.bind_eq_some] at h
  obtain ⟨ucol, huc, h⟩ := h
  obtain ⟨genderCounts, hgc, h⟩ := h
  simp only [Option.map_eq_some'] at h
  obtain ⟨birthStats, hbs, hres⟩ := h
  subst hres
  obtain ⟨humem, hval⟩ := colVals_eq_some huc
  subst hval
  refine ⟨rfl, humem, ?_, ?_⟩
  · by_cases hg : "Gender" ∈ df.cols
    · rw [if_pos hg] at hgc
      simp only [← Option.some.inj hgc, hg, Option.isSome_some]
    · rw [if_neg hg] at hgc
      simp only [← Option.some.inj hgc, hg, Option.isSome_none]
      simp
  · by_cases hb : "Birth Year" ∈ df.cols
    · rw [if_pos hb] at hbs
      simp only [Option.bind_eq_some, Option.map_eq_some'] at hbs
      obtain ⟨e, -, l, -, s, -, hb2⟩ := hbs
      simp only [← hb2, hb, Option.isSome_some]
    · rw [if_neg hb] at hbs
      simp only [← Option.some.inj hbs, hb, Option.isSome_none]
      simp

theorem map_ne_nil {α : Type} {rows : List Trip} (f : Trip → α) (h : rows ≠ []) :
    rows.map f ≠ [] :=
  fun hc => h (List.map_eq_nil_iff.mp hc)

theorem statOf_some_of_ne_nil {α : Type} [DecidableEq α] (lt : α → α → Bool)
    (col : List α) (h : col ≠ []) : ∃ s, statOf lt col = some s := by
  obtain ⟨m, hm⟩ := statOf_eq_some_of_ne_nil lt col h
  exact ⟨_, hm⟩

theorem time_stats_total {df : DataFrame} (month day : String)
    (hm : "month" ∈ df.cols) (hd : "day_of_week" ∈ df.cols) (hne : df.rows ≠ []) :
    ∃ res df2, time_stats df month day = some (res, df2) := by
  obtain ⟨hstat, hmh⟩ :=
    statOf_some_of_ne_nil natLt (df.rows.map hour_col) (map_ne_nil hour_col hne)
  obtain ⟨mstat, hmm⟩ :=
    statOf_some_of_ne_nil natLt (df.rows.map month_col) (map_ne_nil month_col hne)
  obtain ⟨dstat, hmd⟩ :=
    statOf_some_of_ne_nil strLt (df.rows.map day_of_week_col)
      (map_ne_nil day_of_week_col hne)
  by_cases h1 : month = "all" <;> by_cases h2 : day = "all"
  · refine ⟨⟨some mstat, some dstat, hstat⟩, add_col df "hour", ?_⟩
    simp only [time_stats, if_pos h1, if_pos h2, colVals_of_mem month_col hm,
      colVals_of_mem day_of_week_col hd, colVals_add_col_self, Option.some_bind,
      hmm, hmd, hmh, Option.map_some']
  · refine ⟨⟨some mstat, none, hstat⟩, add_col df "hour", ?_⟩
    simp only [time_stats, if_pos h1, if_neg h2, colVals_of_mem month_col hm,
      colVals_add_col_self, Option.some_bind, hmm, hmh, Option.map_some']
  · refine ⟨⟨none, some dstat, hstat⟩, add_col df "hour", ?_⟩
    simp only [time_stats, if_neg h1, if_pos h2, colVals_of_mem day_of_week_col hd,
      colVals_add_col_self, Option.some_bind, hmd, hmh, Option.map_some']
  · refine ⟨⟨none, none, hstat⟩, add_col df "hour", ?_⟩
    simp only [time_stats, if_neg h1, if_neg h2, colVals_add_col_self,
      Option.some_bind, hmh, Option.map_some']

theorem pyRound_nonneg (q : ℚ) (h : 0 ≤ q) : 0 ≤ pyRound q := by
  have hf : 0 ≤ ⌊q⌋ := Int.floor_nonneg.mpr h
  unfold pyRound
  split_ifs <;> omega

theorem pyRound_le (q : ℚ) (n : ℤ) (h : q ≤ (n : ℚ)) : pyRound q ≤ n := by
  have hfl : ⌊q⌋ ≤ n := by
    have h2 := Int.floor_le_floor h
    rwa [Int.floor_intCast] at h2
  have hq : (⌊q⌋ : ℚ) ≤ q := Int.floor_le q
  unfold pyRound
  split_ifs with h1 h2 h3
  · exact hfl
  · have h4 : (⌊q⌋ : ℚ) < (n : ℚ) := by linarith
    have h5 : ⌊q⌋ < n := by exact_mod_cast h4
    omega
  · exact hfl
  · have h6 : (1 : ℚ) / 2 ≤ q - ⌊q⌋ := not_lt.mp h1
    have h4 : (⌊q⌋ : ℚ) < (n : ℚ) := by linarith
    have h5 : ⌊q⌋ < n := by exact_mod_cast h4
    omega

/-! ## Claim theorems -/

/-- Claim C1 (code bug): the script does NOT detect an empty filtered
result before computing most-frequent values.  On a loaded table with
zero rows (a month/day combination with no trips), the time-of-travel
and station sub-reports fail inside the mode computation (the [0]
access at lines 216/230/242 and 264/275/288 raises on the empty mode
series) instead of reporting a distinct non-crashing outcome. -/
theorem c1_empty_filter_crash :
    time_stats emptyDf "all" "all" = none ∧ station_stats emptyDf = none :=
  ⟨rfl, rfl⟩

/-- Claim C3 as stated is false: running the time-of-travel
sub-report on a table mutates it, adding the derived hour column
(the assignment at line 241), so the aggregation stage does not leave
the table with its rows, columns and values unchanged. -/
theorem c3_aggregation_mutates :
    (time_stats sampleDf "all" "all").map (fun p => p.2) ≠ some sampleDf := by
  decide

/-- Claim C3 amended: the aggregation sub-reports leave the rows (and
hence every existing value) of the table unchanged, but time_stats
adds the derived hour column and station_stats adds the derived
Combined Start-End column to the table. -/
theorem c3_aggregation_frame :
    (∀ df month day res df2, time_stats df month day = some (res, df2) →
      df2.rows = df.rows ∧ df2 = add_col df "hour") ∧
    (∀ df res df2, station_stats df = some (res, df2) →
      df2.rows = df.rows ∧ df2 = add_col df "Combined Start-End") := by
  constructor
  · intro df month day res df2 h
    obtain ⟨h1, -⟩ := time_stats_inv h
    exact ⟨by rw [h1, add_col_rows], h1⟩
  · intro df res df2 h
    obtain ⟨h1, -⟩ := station_stats_inv h
    exact ⟨by rw [h1, add_col_rows], h1⟩

/-- Witness for the amended C3 at a concrete two-row table. -/
theorem c3_aggregation_frame_witness :
    (add_col sampleDf "hour").rows = sampleDf.rows ∧
    add_col sampleDf "hour" = add_col sampleDf "hour" :=
  c3_aggregation_frame.1 sampleDf "all" "all" sampleTimeRes
    (add_col sampleDf "hour") (by decide)

/-- Claim C4 as stated is false on its concrete example: 31,622,400
seconds is 366 whole days, which the 365-day convention splits as 1
year and 1 day, and the %02d directive renders the day remainder as
01 (two digits), so the total renders as
"1 years 01 days 00 hrs 00 min 00 sec" and not as
"1 years 000 days 00 hrs 00 min 00 sec". -/
theorem c4_duration_format_counterexample :
    trip_duration_total durDf = some "1 years 01 days 00 hrs 00 min 00 sec" ∧
    trip_duration_total durDf ≠ some "1 years 000 days 00 hrs 00 min 00 sec" := by
  decide

/-- Claim C4 amended: the trip-duration total is the integer sum of
the duration column broken down with divisors 60 sec/min, 60 min/hr,
24 hr/day and 365 day/year with no leap-year adjustment, and a summed
duration of exactly 31,622,400 seconds renders as
"1 years 01 days 00 hrs 00 min 00 sec". -/
theorem c4_duration_format :
    (∀ df dcol, colVals df "Trip Duration" Trip.tripDuration = some dcol →
      trip_duration_total df = some (format_duration dcol.sum)) ∧
    (∀ n : Nat, format_duration n =
      toString (n / (60 * 60 * 24 * 365)) ++ " years " ++
      pad2 (n / (60 * 60 * 24) % 365) ++ " days " ++
      pad2 (n / (60 * 60) % 24) ++ " hrs " ++
      pad2 (n / 60 % 60) ++ " min " ++
      pad2 (n % 60) ++ " sec") ∧
    format_duration 31622400 = "1 years 01 days 00 hrs 00 min 00 sec" := by
  refine ⟨?_, ?_, by decide⟩
  · intro df dcol h
    simp [trip_duration_total, h]
  · intro n
    simp [format_duration, Nat.div_div_eq_div_mul]

/-- Witness for the amended C4 at the 366-day total. -/
theorem c4_duration_format_witness :
    trip_duration_total durDf =
      some (format_duration (durDf.rows.map Trip.tripDuration).sum) :=
  c4_duration_format.1 durDf (durDf.rows.map Trip.tripDuration) (by decide)

/-- Claim C5: the integer-to-weekday conversion maps 1 to Sunday, 2
to Monday, ..., 7 to Saturday (via the Python negative index at
day = 1), and each resulting name is exactly a strftime %A output
and is fixed by the title-casing applied before the day filter
comparison. -/
theorem c5_day_conversion :
    int_to_day_name 1 = some "Sunday" ∧ int_to_day_name 2 = some "Monday" ∧
    int_to_day_name 3 = some "Tuesday" ∧ int_to_day_name 4 = some "Wednesday" ∧
    int_to_day_name 5 = some "Thursday" ∧ int_to_day_name 6 = some "Friday" ∧
    int_to_day_name 7 = some "Saturday" ∧
    (∀ n : Fin 7, ∃ w : Fin 7,
      int_to_day_name (n.val + 1) = some (strftimeA w) ∧
      pyTitle (strftimeA w) = strftimeA w) := by
  decide

/-- Claim C9: the month filter and the day filter are independent
equality predicates and commute: filtering by month then day yields
the same rows as filtering by day then month. -/
theorem c9_filters_commute (rows : List Trip) (mv : Nat) (d : String) :
    filter_day d (filter_month mv rows) = filter_month mv (filter_day d rows) := by
  simp only [filter_day, filter_month, List.filter_filter]
  congr 1
  funext t
  exact Bool.and_comm _ _

/-- Claim C10: the User Type access of user_stats is unguarded, so
user_stats fails outright (rather than omitting the sub-report) on
any table lacking that column, and succeeds on tables that have it. -/
theorem c10_user_type_unguarded :
    (∀ df, "User Type" ∉ df.cols → user_stats df = none) ∧
    (∃ df res, "User Type" ∈ df.cols ∧ user_stats df = some res) := by
  constructor
  · intro df h
    simp [user_stats, colVals, h]
  · exact ⟨washDf, washRes, by decide, by decide⟩

/-- Witness for C10 at a concrete table lacking the User Type
column. -/
theorem c10_user_type_unguarded_witness : user_stats noUserTypeDf = none :=
  c10_user_type_unguarded.1 noUserTypeDf (by decide)

/-- Claim C2: loading then filtering returns exactly the subset of
loaded rows whose derived month matches the month selection and whose
derived day-of-week matches the day selection, a selection of all
imposing no restriction; with month = all and day = all the returned
table keeps every source row. -/
theorem c2_load_filter_exact :
    (∀ source srcCols month day df,
      load_data source srcCols month day = some df →
      df.rows = source.filter (fun t =>
        (match month_selector month with
         | none => true
         | some mv => month_col t == mv) &&
        (if day = "all" then true else day_of_week_col t == pyTitle day))) ∧
    (∀ source srcCols df, load_data source srcCols "all" "all" = some df →
      df.rows.length = source.length) := by
  have hmain : ∀ (source : List Trip) (srcCols : List String) (month day : String)
      (df : DataFrame), load_data source srcCols month day = some df →
      df.rows = source.filter (fun t =>
        (match month_selector month with
         | none => true
         | some mv => month_col t == mv) &&
        (if day = "all" then true else day_of_week_col t == pyTitle day)) := by
    intro source srcCols month day df h
    unfold load_data at h
    simp only [Option.map_eq_some'] at h
    obtain ⟨rows1, h1, hdf⟩ := h
    subst hdf
    by_cases hm : month = "all"
    · rw [if_pos hm] at h1
      obtain rfl := Option.some.inj h1
      have hsel : month_selector month = none := by simp [month_selector, hm]
      rw [hsel]
      by_cases hd : day = "all"
      · simp [hd, List.filter_true]
      · simp [hd, filter_day]
    · rw [if_neg hm] at h1
      simp only [Option.map_eq_some'] at h1
      obtain ⟨i, hi, hrows1⟩ := h1
      subst hrows1
      have hsel : month_selector month = some (i + 1) := by
        simp [month_selector, hm, hi]
      rw [hsel]
      by_cases hd : day = "all"
      · simp [hd, filter_month]
      · simp only [hd, if_neg, if_false]
        simp only [filter_day, filter_month, List.filter_filter]
        congr 1
        funext t
        exact Bool.and_comm _ _
  refine ⟨hmain, ?_⟩
  intro source srcCols df h
  rw [hmain source srcCols "all" "all" df h]
  have hsel : month_selector "all" = none := by simp [month_selector]
  rw [hsel]
  simp [List.filter_true]

/-- Witness for C2: loading the two-row sample source with no filters
keeps both rows. -/
theorem c2_load_filter_exact_witness :
    (DataFrame.mk [sampleTrip, sampleTrip2] loadedCols).rows.length =
      [sampleTrip, sampleTrip2].length :=
  c2_load_filter_exact.2 [sampleTrip, sampleTrip2] fullCols
    (DataFrame.mk [sampleTrip, sampleTrip2] loadedCols) (by decide)

/-- Claim C6: in the time-of-travel sub-report the most frequent
month is computed iff the month filter is "all", the most frequent
day-of-week is computed iff the day filter is "all", and the most
frequent start hour is always computed; on a nonempty loaded table
the sub-report always completes. -/
theorem c6_time_stats_conditional :
    (∀ df month day res df2, time_stats df month day = some (res, df2) →
      (res.popularMonth.isSome ↔ month = "all") ∧
      (res.popularDay.isSome ↔ day = "all") ∧
      statOf natLt (df.rows.map hour_col) = some res.popularHour) ∧
    (∀ df month day, "month" ∈ df.cols → "day_of_week" ∈ df.cols →
      df.rows ≠ [] → ∃ res df2, time_stats df month day = some (res, df2)) := by
  constructor
  · intro df month day res df2 h
    obtain ⟨-, hh, hm1, hm2, hd1, hd2⟩ := time_stats_inv h
    refine ⟨?_, ?_, hh⟩
    · by_cases hm : month = "all"
      · obtain ⟨-, s, -, hsome⟩ := hm1 hm
        simp [hsome, hm]
      · simp [hm2 hm, hm]
    · by_cases hd : day = "all"
      · obtain ⟨-, s, -, hsome⟩ := hd1 hd
        simp [hsome, hd]
      · simp [hd2 hd, hd]
  · intro df month day hm hd hne
    exact time_stats_total month day hm hd hne

/-- Witness for C6 on the sample table with a pinned month filter. -/
theorem c6_time_stats_conditional_witness :
    ∃ res df2, time_stats sampleDf "june" "all" = some (res, df2) :=
  c6_time_stats_conditional.2 sampleDf "june" "all" (by decide) (by decide)
    (by decide)

/-- Claim C7: the gender and birth-year sub-reports are produced iff
the corresponding column is present (column presence, no city name
appears anywhere in the aggregation), and a table lacking both still
gets its user-type counts while those sub-reports are omitted
entirely. -/
theorem c7_demographics_column_presence :
    (∀ df res, user_stats df = some res →
      res.userTypeCounts = groupCounts (df.rows.map Trip.userType) ∧
      (res.genderCounts.isSome ↔ "Gender" ∈ df.cols) ∧
      (res.birthStats.isSome ↔ "Birth Year" ∈ df.cols)) ∧
    (∀ df, "User Type" ∈ df.cols → "Gender" ∉ df.cols → "Birth Year" ∉ df.cols →
      user_stats df =
        some ⟨groupCounts (df.rows.map Trip.userType), none, none⟩) := by
  constructor
  · intro df res h
    obtain ⟨h1, -, h3, h4⟩ := user_stats_inv h
    exact ⟨h1, h3, h4⟩
  · intro df hu hg hb
    simp [user_stats, colVals, hu, hg, hb]

/-- Witness for C7 on the Washington-layout sample table. -/
theorem c7_demographics_column_presence_witness :
    user_stats washDf =
      some ⟨groupCounts (washDf.rows.map Trip.userType), none, none⟩ :=
  c7_demographics_column_presence.2 washDf (by decide) (by decide) (by decide)

/-- Claim C8: a reported percentage is 100 times the occurrence count
divided by the total rows in scope, rounded (half to even, as Python
round does); an occurrence count never exceeds the column total, and
the resulting percentage lies between 0 and 100. -/
theorem c8_percentage :
    (∀ (l : List Nat) (v : Nat), countVal l v ≤ l.length) ∧
    (∀ (v t : Nat), t ≠ 0 →
      extra_stats_percent v t = some (pyRound ((v : ℚ) * 100 / (t : ℚ))) ∧
      (v ≤ t → 0 ≤ pyRound ((v : ℚ) * 100 / (t : ℚ)) ∧
        pyRound ((v : ℚ) * 100 / (t : ℚ)) ≤ 100)) ∧
    (∀ df month day res df2, time_stats df month day = some (res, df2) →
      res.popularHour.count ≤ res.popularHour.total) := by
  refine ⟨fun l v => countVal_le_length l v, ?_, ?_⟩
  · intro v t ht
    have htq : (0 : ℚ) < (t : ℚ) := by
      exact_mod_cast Nat.pos_of_ne_zero ht
    refine ⟨by simp [extra_stats_percent, ht], fun hvt => ⟨?_, ?_⟩⟩
    · apply pyRound_nonneg
      positivity
    · have h100 : ((100 : ℤ) : ℚ) = (100 : ℚ) := by norm_num
      apply pyRound_le
      rw [h100, div_le_iff₀ htq]
      have hc : (v : ℚ) ≤ (t : ℚ) := by exact_mod_cast hvt
      linarith
  · intro df month day res df2 h
    obtain ⟨-, hh, -⟩ := time_stats_inv h
    exact statOf_count_le_total _ _ hh

/-- Witness for C8 at count 1 of total 3. -/
theorem c8_percentage_witness :
    extra_stats_percent 1 3 =
      some (pyRound (((1 : Nat) : ℚ) * 100 / ((3 : Nat) : ℚ))) :=
  (c8_percentage.2.1 1 3 (by decide)).1

end Bikeshare
